import Mathlib

/-!
Shallow embedding of the scene projection engine and camera controller of
`src/morecpp/framework/viewController.cpp`.

Float arithmetic of the source is modelled exactly: camera state over the
rationals (all camera operations are field operations, min and max), scene
geometry over the reals (vector normalisation needs a square root).
Each `glDrawArrays` emission of the source becomes one `DrawCommand`
recording the model transform in the order the source builds it
(translate to the anchor, rotate about the vertical axis, translate by a
local offset, scale) together with the RGB color.
-/

namespace Morecpp

/-- Camera orthographic bounds, the fields of `ViewController` mutated by
`processScroll` (viewController.cpp lines 82 to 96). -/
structure CameraBounds where
  orthographicLeft : ℚ
  orthographicRight : ℚ
  orthographicBottom : ℚ
  orthographicTop : ℚ
  deriving DecidableEq, Repr

/-- Embedding of `ViewController::processScroll` (viewController.cpp lines 82 to 96):
multiply all four orthographic bounds by
`zoomFactor = 1 + (-yOffset * 10 / 100)`, then clamp `left` at `-3200`
from below, `right` at `3200` from above, `bottom` at `-1800` from below
and `top` at `1800` from above. -/
def processScroll (yOffset : ℚ) (c : CameraBounds) : CameraBounds :=
  let zoomSensitivity : ℚ := 10
  let zoomFactor : ℚ := 1 + (-yOffset * zoomSensitivity / 100)
  { orthographicLeft := max (c.orthographicLeft * zoomFactor) (-3200)
    orthographicRight := min (c.orthographicRight * zoomFactor) 3200
    orthographicBottom := max (c.orthographicBottom * zoomFactor) (-1800)
    orthographicTop := min (c.orthographicTop * zoomFactor) 1800 }

/-- Fold a sequence of scroll deltas through `processScroll`. -/
def stepAll (c : CameraBounds) (ds : List ℚ) : CameraBounds :=
  ds.foldl (fun acc d => processScroll d acc) c

/-- Embedding of `ViewController::getCurrentZoomLevel` (viewController.cpp lines 462
to 464). -/
def getCurrentZoomLevel (c : CameraBounds) : ℚ :=
  (c.orthographicRight - c.orthographicLeft) / 200

/-- The camera state the claim C1 starts from: both horizontal and both
vertical bounds straddle zero. -/
def centeredBounds (c : CameraBounds) : Prop :=
  c.orthographicLeft < 0 ∧ 0 < c.orthographicRight ∧
  c.orthographicBottom < 0 ∧ 0 < c.orthographicTop

/-- The invariant claimed after every zoom update: ordered bounds lying
inside the fixed world extent of 3200 horizontally and 1800 vertically. -/
def boundsWithinExtent (c : CameraBounds) : Prop :=
  c.orthographicLeft < c.orthographicRight ∧
  c.orthographicBottom < c.orthographicTop ∧
  -3200 ≤ c.orthographicLeft ∧ c.orthographicLeft ≤ 3200 ∧
  -3200 ≤ c.orthographicRight ∧ c.orthographicRight ≤ 3200 ∧
  -1800 ≤ c.orthographicBottom ∧ c.orthographicBottom ≤ 1800 ∧
  -1800 ≤ c.orthographicTop ∧ c.orthographicTop ≤ 1800

/-- Modelled from the spec: the `Vector3` value type of the simulation
model is not under `src/`; the renderer uses componentwise arithmetic,
length and normalisation of world vectors with x, y, z components. -/
structure Vector3 where
  x : ℝ
  y : ℝ
  z : ℝ

instance : Sub Vector3 := ⟨fun a b => ⟨a.x - b.x, a.y - b.y, a.z - b.z⟩⟩

instance : Add Vector3 := ⟨fun a b => ⟨a.x + b.x, a.y + b.y, a.z + b.z⟩⟩

instance : HMul Vector3 ℝ Vector3 := ⟨fun v s => ⟨v.x * s, v.y * s, v.z * s⟩⟩

/-- Modelled from the spec: `Vector3::length`, the Euclidean norm. -/
noncomputable def Vector3.length (v : Vector3) : ℝ :=
  Real.sqrt (v.x ^ 2 + v.y ^ 2 + v.z ^ 2)

open Classical in
/-- Modelled from the spec: `Vector3::normalized` is not under `src/`;
per spec section 4.2 it is zero-safe, so the zero vector normalises to the
zero vector, and otherwise each component is divided by the length. -/
noncomputable def Vector3.normalized (v : Vector3) : Vector3 :=
  if v.length = 0 then ⟨0, 0, 0⟩
  else ⟨v.x / v.length, v.y / v.length, v.z / v.length⟩

/-- Modelled from the spec: C library `atan2(y, x)`, the argument of the
complex number `x + i y`. -/
noncomputable def atan2 (y x : ℝ) : ℝ :=
  Complex.arg ⟨x, y⟩

/-- A light state (GREEN, YELLOW, RED), the exhaustive enum read by
`renderTrafficLights` (viewController.cpp lines 274 to 288). -/
inductive LightState where
  | GREEN
  | YELLOW
  | RED
  deriving DecidableEq, Repr

/-- Modelled from the spec: a `Junction` carries a position and a radius;
a `TrafficLightJunction` additionally carries, per connected road, an
entry point and a light state. The dynamic capability check of
`renderJunction` (viewController.cpp line 252) becomes an `Option` on
that per-road table, `some` exactly when the downcast succeeds. -/
structure Junction where
  position : Vector3
  radius : ℝ
  trafficLight : Option (List (Vector3 × LightState))

/-- Modelled from the spec: a lane type tag; the renderer only compares
tags of adjacent lanes for equality (viewController.cpp line 370). -/
inductive LaneType where
  | car
  | bike
  | shoulder
  deriving DecidableEq, Repr

/-- Modelled from the spec: a lane, carrying its type tag. -/
structure Lane where
  type : LaneType
  deriving DecidableEq, Repr

/-- Modelled from the spec: an RGB color with channels 0 to 255, as read
from a vehicle by `renderVehicle` (viewController.cpp line 452). -/
structure Color where
  r : ℝ
  g : ℝ
  b : ℝ

/-- Modelled from the spec: the vehicle query surface used by
`renderVehicle` (viewController.cpp lines 428 to 446). -/
structure Vehicle where
  currentLane : ℤ
  distanceAlongRoad : ℝ
  dimensions : Vector3
  color : Color

/-- Modelled from the spec: the road segment query surface used by
`renderRoadSegment`. `lanePositionAlongRoad` is the external
lane-position-at-distance query of spec section 6, kept as an arbitrary
per-road function; `direction` is the raw untrimmed direction returned by
`getDirection`; `dimensions.z` is the road width. -/
structure RoadSegment where
  startJunction : Option Junction
  endJunction : Option Junction
  dimensions : Vector3
  lanes : List Lane
  vehicles : List (Option Vehicle)
  direction : Vector3
  lanePositionAlongRoad : ℤ → ℝ → Vector3

/-- Modelled from the spec: `RoadSegment::getLaneCount` is not under
`src/`; the spec fixes the lane list as ordered with `laneCount` lanes,
so the count is the length of the lane list. -/
def RoadSegment.getLaneCount (road : RoadSegment) : ℕ :=
  road.lanes.length

/-- One draw command: the model transform of one `glDrawArrays` call of
the source, in the order built there (translate to `translation`, rotate
by `rotationDeg` about the vertical axis, translate by `localOffset`,
scale by `scale`), plus the RGB color uniform. -/
structure DrawCommand where
  translation : Vector3
  rotationDeg : ℝ
  localOffset : Vector3
  scale : Vector3
  color : Vector3

/-- Embedding of `ViewController::drawRectangle` (viewController.cpp lines 126 to
143): translate then scale, no rotation and no local offset. -/
def drawRectangle (position scale color : Vector3) : DrawCommand :=
  { translation := position
    rotationDeg := 0
    localOffset := ⟨0, 0, 0⟩
    scale := scale
    color := color }

/-- Embedding of `ViewController::renderVehicle` (viewController.cpp lines 428 to
460): position from the lane-position query raised to y = 0.02, rotation
from the raw road direction, scale from the vehicle dimensions, color
from the vehicle RGB divided by 255. -/
noncomputable def renderVehicle (vehicle : Vehicle) (road : RoadSegment) : DrawCommand :=
  let lane := vehicle.currentLane
  let distance := vehicle.distanceAlongRoad
  let vehiclePos := road.lanePositionAlongRoad lane distance
  let vehicleDim := vehicle.dimensions
  let vehicleColor := vehicle.color
  let roadDir := road.direction
  let angle := atan2 roadDir.z roadDir.x * 180 / 3.14159
  { translation := ⟨vehiclePos.x, 0.02, vehiclePos.z⟩
    rotationDeg := angle
    localOffset := ⟨0, 0, 0⟩
    scale := ⟨vehicleDim.x, 1, vehicleDim.z⟩
    color := ⟨vehicleColor.r / 255, vehicleColor.g / 255, vehicleColor.b / 255⟩ }

/-- The vehicle pass at the end of `renderRoadSegment` (viewController.cpp
lines 419 to 424): null entries of the vehicle list are skipped, every
non-null entry is rendered. -/
noncomputable def vehicleCommands (road : RoadSegment) : List DrawCommand :=
  road.vehicles.flatMap fun vehicle =>
    match vehicle with
    | some v => [renderVehicle v road]
    | none => []

/-- The dashed-boundary branch of `renderRoadSegment` (viewController.cpp
lines 391 to 415): dash length 3, gap 7, so period 10; the dash count is
the integer truncation of length over period plus one; dash `k` sits at
longitudinal offset `-length / 2 + k * period + dashLength / 2`. -/
noncomputable def dashCommands (roadCenter : Vector3)
    (angle adjustedLength lanePosition minLineThickness minLineWidth : ℝ) :
    List DrawCommand :=
  let dashLength : ℝ := 3
  let gapLength : ℝ := 7
  let spacing : ℝ := dashLength + gapLength
  let dashCount : ℕ := (⌊adjustedLength / spacing⌋).toNat + 1
  (List.range dashCount).map fun (dashIdx : ℕ) =>
    let dashOffset := -adjustedLength / 2 + (dashIdx : ℝ) * spacing + dashLength / 2
    { translation := roadCenter
      rotationDeg := angle
      localOffset := ⟨dashOffset, 0.05, lanePosition⟩
      scale := ⟨dashLength, max 0.1 minLineThickness, max 0.5 minLineWidth⟩
      color := ⟨1, 1, 1⟩ }

/-- One internal lane boundary of `renderRoadSegment` (viewController.cpp
lines 369 to 417): boundary `i` sits at lateral offset
`-roadWidth / 2 + i * laneWidth`; it is a single solid full-length stroke
when the adjacent lane types differ, and a dash pattern otherwise. -/
noncomputable def boundaryCommands (roadCenter : Vector3)
    (angle adjustedLength roadWidth laneWidth minLineThickness minLineWidth : ℝ)
    (lanes : List Lane) (i : ℕ) : List DrawCommand :=
  let isShoulderBoundary : Prop :=
    (lanes.getD (i - 1) ⟨LaneType.car⟩).type ≠ (lanes.getD i ⟨LaneType.car⟩).type
  let lanePosition := -roadWidth / 2 + (i : ℝ) * laneWidth
  let lineColor : Vector3 := ⟨1, 1, 1⟩
  if isShoulderBoundary then
    [{ translation := roadCenter
       rotationDeg := angle
       localOffset := ⟨0, 0.05, lanePosition⟩
       scale := ⟨adjustedLength, max 0.2 minLineThickness, max 0.2 minLineWidth⟩
       color := lineColor }]
  else
    dashCommands roadCenter angle adjustedLength lanePosition minLineThickness minLineWidth

/-- The lane-marking loop of `renderRoadSegment` (viewController.cpp line
369): one boundary per index `i` in `1 .. laneCount - 1`. -/
noncomputable def markingCommands (roadCenter : Vector3)
    (angle adjustedLength roadWidth laneWidth minLineThickness minLineWidth : ℝ)
    (lanes : List Lane) (laneCount : ℕ) : List DrawCommand :=
  (List.range' 1 (laneCount - 1)).flatMap
    (boundaryCommands roadCenter angle adjustedLength roadWidth laneWidth
      minLineThickness minLineWidth lanes)

/-- The body of `ViewController::renderRoadSegment` after the null checks
(viewController.cpp lines 300 to 424): trim both endpoints inward by the
start junction radius along the normalised direction, skip when the
adjusted length is at most 0.001, otherwise emit the road body, the lane
markings, then the vehicles. -/
noncomputable def renderRoadSegmentAux (oLeft oRight : ℝ) (road : RoadSegment)
    (startJunction endJunction : Junction) : List DrawCommand :=
  let zoomFactor := (oRight - oLeft) / 240
  let minLineThickness := 0.2 * zoomFactor
  let minLineWidth := 0.5 * zoomFactor
  let startPos := startJunction.position
  let endPos := endJunction.position
  let junctionRadius := startJunction.radius
  let roadDir := (endPos - startPos).normalized
  let adjustedStartPos := startPos + roadDir * junctionRadius
  let adjustedEndPos := endPos - roadDir * junctionRadius
  let adjustedRoadDir := adjustedEndPos - adjustedStartPos
  let adjustedLength := adjustedRoadDir.length
  if adjustedLength ≤ 0.001 then []
  else
    let roadCenter : Vector3 :=
      ⟨(adjustedStartPos.x + adjustedEndPos.x) / 2, 0.01,
       (adjustedStartPos.z + adjustedEndPos.z) / 2⟩
    let roadWidth := road.dimensions.z
    let angle := atan2 roadDir.z roadDir.x * 180 / 3.14159
    let laneCount := road.getLaneCount
    let laneWidth := roadWidth / (laneCount : ℝ)
    { translation := roadCenter
      rotationDeg := angle
      localOffset := ⟨0, 0, 0⟩
      scale := ⟨adjustedLength, 1, roadWidth⟩
      color := ⟨0.3, 0.3, 0.3⟩ } ::
      (markingCommands roadCenter angle adjustedLength roadWidth laneWidth
        minLineThickness minLineWidth road.lanes laneCount
        ++ vehicleCommands road)

/-- Embedding of `ViewController::renderRoadSegment` (viewController.cpp lines 298 to
425): silently skip a road missing either junction reference, otherwise
render its body, markings and vehicles. -/
noncomputable def renderRoadSegment (oLeft oRight : ℝ) (road : RoadSegment) :
    List DrawCommand :=
  match road.startJunction, road.endJunction with
  | some startJunction, some endJunction =>
      renderRoadSegmentAux oLeft oRight road startJunction endJunction
  | _, _ => []

/-- Embedding of `ViewController::renderTrafficLights` (viewController.cpp lines 266
to 295): one fixed-size marker per connected road, colored by light state
and placed at the entry point raised to y = 0.5. -/
noncomputable def renderTrafficLights (connectedRoads : List (Vector3 × LightState)) :
    List DrawCommand :=
  connectedRoads.map fun entry =>
    let lightColor : Vector3 :=
      match entry.2 with
      | LightState.GREEN => ⟨0, 1, 0⟩
      | LightState.YELLOW => ⟨1, 1, 0⟩
      | LightState.RED => ⟨1, 0, 0⟩
    drawRectangle ⟨entry.1.x, 0.5, entry.1.z⟩ ⟨2, 2, 2⟩ lightColor

/-- Embedding of `ViewController::renderJunction` (viewController.cpp lines 242 to
263): one body quad scaled to twice the radius, lighter gray when the
junction carries the traffic-light capability, followed by the traffic
light markers for such a junction. -/
noncomputable def renderJunction (junction : Junction) : List DrawCommand :=
  let position : Vector3 := ⟨junction.position.x, 0.01, junction.position.z⟩
  let scale : Vector3 := ⟨junction.radius * 2, 0.5, junction.radius * 2⟩
  let color : Vector3 :=
    match junction.trafficLight with
    | some _ => ⟨0.5, 0.5, 0.6⟩
    | none => ⟨0.4, 0.4, 0.4⟩
  drawRectangle position scale color ::
    (match junction.trafficLight with
     | some connectedRoads => renderTrafficLights connectedRoads
     | none => [])

/-! ### Helper lemmas -/

theorem processScroll_step (c : CameraBounds) (hc : centeredBounds c)
    (d : ℚ) (hd : d < 10) :
    centeredBounds (processScroll d c) ∧ boundsWithinExtent (processScroll d c) := by
  obtain ⟨hl, hr, hb, ht⟩ := hc
  have hzf : 0 < 1 + (-d * 10 / 100) := by linarith
  have h1 : c.orthographicLeft * (1 + (-d * 10 / 100)) < 0 :=
    mul_neg_of_neg_of_pos hl hzf
  have h2 : 0 < c.orthographicRight * (1 + (-d * 10 / 100)) := mul_pos hr hzf
  have h3 : c.orthographicBottom * (1 + (-d * 10 / 100)) < 0 :=
    mul_neg_of_neg_of_pos hb hzf
  have h4 : 0 < c.orthographicTop * (1 + (-d * 10 / 100)) := mul_pos ht hzf
  have hl2 : max (c.orthographicLeft * (1 + (-d * 10 / 100))) (-3200) < 0 :=
    max_lt h1 (by norm_num)
  have hr2 : 0 < min (c.orthographicRight * (1 + (-d * 10 / 100))) 3200 :=
    lt_min h2 (by norm_num)
  have hb2 : max (c.orthographicBottom * (1 + (-d * 10 / 100))) (-1800) < 0 :=
    max_lt h3 (by norm_num)
  have ht2 : 0 < min (c.orthographicTop * (1 + (-d * 10 / 100))) 1800 :=
    lt_min h4 (by norm_num)
  simp only [processScroll, centeredBounds, boundsWithinExtent]
  refine ⟨⟨hl2, hr2, hb2, ht2⟩, lt_trans hl2 hr2, lt_trans hb2 ht2,
    le_max_right _ _, le_of_lt (lt_of_lt_of_le hl2 (by norm_num)),
    le_of_lt (lt_of_le_of_lt (by norm_num) hr2), min_le_right _ _,
    le_max_right _ _, le_of_lt (lt_of_lt_of_le hb2 (by norm_num)),
    le_of_lt (lt_of_le_of_lt (by norm_num) ht2), min_le_right _ _⟩

theorem stepAll_centered (ds : List ℚ) : ∀ c : CameraBounds, centeredBounds c →
    (∀ d ∈ ds, d < 10) → centeredBounds (stepAll c ds) := by
  induction ds with
  | nil => intro c hc _; exact hc
  | cons e es ih =>
      intro c hc hds
      have he := hds e (List.mem_cons_self _ _)
      have h1 := (processScroll_step c hc e he).1
      simpa [stepAll] using
        ih (processScroll e c) h1 (fun x hx => hds x (List.mem_cons_of_mem _ hx))

/-! ### Claims about the camera controller -/

/-- Claim C1, amended. As stated the claim is false (see the
counterexample below): a scroll delta of 10 or more makes the zoom factor
vanish or turn negative, and a positive left bound can escape past 3200,
so the amended claim restricts every delta to be below 10 and starts from
bounds that straddle zero. Then after every call of any sequence of
`processScroll` calls the orthographic bounds satisfy left < right and
bottom < top and lie within the fixed world extent of 3200 horizontally
and 1800 vertically. -/
theorem C1_zoom_sequence_invariant (c : CameraBounds) (hc : centeredBounds c)
    (ds : List ℚ) (hds : ∀ d ∈ ds, d < 10) :
    ∀ pre d suf, ds = pre ++ d :: suf → boundsWithinExtent (stepAll c (pre ++ [d])) := by
  intro pre d suf hsplit
  have hpre : ∀ e ∈ pre, e < 10 := fun e he =>
    hds e (hsplit ▸ List.mem_append_left _ he)
  have hd : d < 10 :=
    hds d (hsplit ▸ List.mem_append_right _ (List.mem_cons_self _ _))
  have hcent : centeredBounds (stepAll c pre) := stepAll_centered pre c hc hpre
  have hstep : stepAll c (pre ++ [d]) = processScroll d (stepAll c pre) := by
    simp [stepAll, List.foldl_append]
  rw [hstep]
  exact (processScroll_step _ hcent d hd).2

/-- Witness for the amended claim C1: one zoom-in call of delta 1 from
the bounds (-120, 120, -67.5, 67.5). -/
theorem C1_zoom_sequence_invariant_witness :
    boundsWithinExtent (stepAll ⟨-120, 120, -135/2, 135/2⟩ ([] ++ [1])) :=
  C1_zoom_sequence_invariant ⟨-120, 120, -135/2, 135/2⟩
    (by refine ⟨?_, ?_, ?_, ?_⟩ <;> norm_num)
    [1] (by intro d hd; rw [List.mem_singleton] at hd; rw [hd]; norm_num)
    [] 1 [] rfl

/-- Counterexample to claim C1 as stated: from the bounds
(-120, 120, -67.5, 67.5), which satisfy left < right and bottom < top, a
single scroll of delta 10 gives zoom factor 0 and collapses left and
right to the same value, so left < right fails after the call. -/
theorem C1_counterexample :
    (-120 : ℚ) < 120 ∧ (-135/2 : ℚ) < 135/2 ∧
      (processScroll 10 ⟨-120, 120, -135/2, 135/2⟩).orthographicLeft =
        (processScroll 10 ⟨-120, 120, -135/2, 135/2⟩).orthographicRight := by
  refine ⟨by norm_num, by norm_num, ?_⟩
  simp only [processScroll]
  norm_num

/-- Claim C9: once the bounds are pinned at the clamp limits, any zoom-out
call (delta at most 0, zoom factor at least 1) leaves all four bounds
unchanged, so repeated clamped zoom-out calls are idempotent. -/
theorem C9_pinned_zoom_out_fixed (d : ℚ) (hd : d ≤ 0) :
    processScroll d ⟨-3200, 3200, -1800, 1800⟩ = ⟨-3200, 3200, -1800, 1800⟩ := by
  have hzf : 1 ≤ 1 + (-d * 10 / 100) := by linarith
  simp only [processScroll, CameraBounds.mk.injEq]
  refine ⟨max_eq_right (by nlinarith), min_eq_right (by nlinarith),
    max_eq_right (by nlinarith), min_eq_right (by nlinarith)⟩

/-- Witness for claim C9: a zoom-out call of delta -2 at the pinned
bounds. -/
theorem C9_pinned_zoom_out_fixed_witness :
    processScroll (-2) ⟨-3200, 3200, -1800, 1800⟩ = ⟨-3200, 3200, -1800, 1800⟩ :=
  C9_pinned_zoom_out_fixed (-2) (by norm_num)

/-! ### Vector arithmetic helper lemmas -/

theorem Vector3.sub_def (a b : Vector3) :
    a - b = ⟨a.x - b.x, a.y - b.y, a.z - b.z⟩ := rfl

theorem Vector3.add_def (a b : Vector3) :
    a + b = ⟨a.x + b.x, a.y + b.y, a.z + b.z⟩ := rfl

theorem Vector3.smul_def (v : Vector3) (s : ℝ) :
    v * s = ⟨v.x * s, v.y * s, v.z * s⟩ := rfl

theorem Vector3.length_mk (x y z : ℝ) :
    Vector3.length ⟨x, y, z⟩ = Real.sqrt (x ^ 2 + y ^ 2 + z ^ 2) := rfl

theorem Vector3.length_zero : Vector3.length ⟨0, 0, 0⟩ = 0 := by
  simp [Vector3.length]

theorem Vector3.normalized_zero : Vector3.normalized ⟨0, 0, 0⟩ = ⟨0, 0, 0⟩ := by
  simp [Vector3.normalized, Vector3.length_zero]

theorem Vector3.sub_self (v : Vector3) : v - v = ⟨0, 0, 0⟩ := by
  simp [Vector3.sub_def]

theorem Vector3.zero_smul (s : ℝ) : (⟨0, 0, 0⟩ : Vector3) * s = ⟨0, 0, 0⟩ := by
  simp [Vector3.smul_def]

theorem Vector3.add_zero_vec (v : Vector3) : v + ⟨0, 0, 0⟩ = v := by
  simp [Vector3.add_def]

theorem Vector3.sub_zero_vec (v : Vector3) : v - ⟨0, 0, 0⟩ = v := by
  simp [Vector3.sub_def]

/-! ### Claims about skipped roads and vehicle placement -/

/-- Claim C2: a road whose start and end junction positions are identical
has adjusted length 0, so rendering it emits zero draw commands (no road
body, no markings, no vehicles) and does not fail. -/
theorem C2_identical_junctions_skip (oLeft oRight : ℝ) (road : RoadSegment)
    (sj ej : Junction) (hs : road.startJunction = some sj)
    (he : road.endJunction = some ej) (hpos : sj.position = ej.position) :
    renderRoadSegment oLeft oRight road = [] := by
  simp only [renderRoadSegment, hs, he, renderRoadSegmentAux, hpos,
    Vector3.sub_self, Vector3.normalized_zero, Vector3.zero_smul,
    Vector3.add_zero_vec, Vector3.sub_zero_vec, Vector3.length_zero]
  norm_num

/-- Witness for claim C2: a road between two junctions both at position
(7, 0, 9) renders to the empty command list. -/
theorem C2_identical_junctions_skip_witness :
    renderRoadSegment 0 1
      ⟨some ⟨⟨7, 0, 9⟩, 2, none⟩, some ⟨⟨7, 0, 9⟩, 5, none⟩, ⟨0, 0, 8⟩,
        [⟨LaneType.car⟩, ⟨LaneType.car⟩], [], ⟨0, 0, 0⟩, fun _ _ => ⟨0, 0, 0⟩⟩ = [] :=
  C2_identical_junctions_skip 0 1 _ ⟨⟨7, 0, 9⟩, 2, none⟩ ⟨⟨7, 0, 9⟩, 5, none⟩
    rfl rfl rfl

/-- Claim C6: a road missing its start junction reference or its end
junction reference renders to zero draw commands and raises no error. -/
theorem C6_missing_junction_skip (oLeft oRight : ℝ) (road : RoadSegment)
    (h : road.startJunction = none ∨ road.endJunction = none) :
    renderRoadSegment oLeft oRight road = [] := by
  rcases h with h | h
  · simp [renderRoadSegment, h]
  · cases hs : road.startJunction <;> simp [renderRoadSegment, hs, h]

/-- Witness for claim C6: a road with no junction references renders to
the empty command list. -/
theorem C6_missing_junction_skip_witness :
    renderRoadSegment 0 1
      ⟨none, none, ⟨0, 0, 0⟩, [], [], ⟨0, 0, 0⟩, fun _ _ => ⟨0, 0, 0⟩⟩ = [] :=
  C6_missing_junction_skip 0 1 _ (Or.inl rfl)

/-- Claim C7: the emitted vehicle draw command translates to
(p.x, 0.02, p.z) where p is the position returned by the lane-position
query of the road at the lane and distance of the vehicle. -/
theorem C7_vehicle_translation (vehicle : Vehicle) (road : RoadSegment)
    (p : Vector3)
    (hp : road.lanePositionAlongRoad vehicle.currentLane vehicle.distanceAlongRoad = p) :
    (renderVehicle vehicle road).translation = ⟨p.x, 0.02, p.z⟩ := by
  simp [renderVehicle, hp]

/-- Witness for claim C7: a vehicle on a road whose lane-position query
returns (12, 0, 34) is translated to (12, 0.02, 34). -/
theorem C7_vehicle_translation_witness :
    (renderVehicle ⟨0, 50, ⟨4, 1, 2⟩, ⟨255, 0, 0⟩⟩
      ⟨none, none, ⟨0, 0, 0⟩, [], [], ⟨1, 0, 0⟩, fun _ _ => ⟨12, 0, 34⟩⟩).translation
      = ⟨12, 0.02, 34⟩ :=
  C7_vehicle_translation _ _ ⟨12, 0, 34⟩ rfl

/-- Claim C8: a traffic-light junction with exactly one connected road in
state RED renders to exactly one junction-body command (lighter gray,
scaled to twice the radius) followed by exactly one marker command of
color (1, 0, 0) translated to (entry.x, 0.5, entry.z). -/
theorem C8_red_light_junction (junction : Junction) (entry : Vector3)
    (h : junction.trafficLight = some [(entry, LightState.RED)]) :
    renderJunction junction =
      [drawRectangle ⟨junction.position.x, 0.01, junction.position.z⟩
        ⟨junction.radius * 2, 0.5, junction.radius * 2⟩ ⟨0.5, 0.5, 0.6⟩,
       drawRectangle ⟨entry.x, 0.5, entry.z⟩ ⟨2, 2, 2⟩ ⟨1, 0, 0⟩] := by
  simp [renderJunction, renderTrafficLights, h]

/-- Witness for claim C8: a traffic-light junction at (3, 0, 4) of radius
6 with one RED road entering at (1, 0, 2). -/
theorem C8_red_light_junction_witness :
    renderJunction ⟨⟨3, 0, 4⟩, 6, some [(⟨1, 0, 2⟩, LightState.RED)]⟩ =
      [drawRectangle ⟨3, 0.01, 4⟩ ⟨6 * 2, 0.5, 6 * 2⟩ ⟨0.5, 0.5, 0.6⟩,
       drawRectangle ⟨1, 0.5, 2⟩ ⟨2, 2, 2⟩ ⟨1, 0, 0⟩] :=
  C8_red_light_junction ⟨⟨3, 0, 4⟩, 6, some [(⟨1, 0, 2⟩, LightState.RED)]⟩ ⟨1, 0, 2⟩ rfl

/-! ### Claim about the dash pattern -/

/-- Claim C3: for a non-degenerate adjusted length L, a dashed boundary
emits exactly floor(L / 10) + 1 dashes of longitudinal length 3, dash k
centered at longitudinal offset -L / 2 + 10 k + 1.5; in particular at
L = 103 the 11 dash offsets run from -50 to 50 in steps of 10. -/
theorem C3_dash_layout (roadCenter : Vector3)
    (angle adjustedLength lanePosition minLineThickness minLineWidth : ℝ)
    (hL : 0.001 < adjustedLength) :
    ((dashCommands roadCenter angle adjustedLength lanePosition minLineThickness
          minLineWidth).length = (⌊adjustedLength / 10⌋).toNat + 1
      ∧ ((⌊adjustedLength / 10⌋).toNat : ℤ) = ⌊adjustedLength / 10⌋
      ∧ ∀ k, ∀ hk : k < (dashCommands roadCenter angle adjustedLength lanePosition
            minLineThickness minLineWidth).length,
          ((dashCommands roadCenter angle adjustedLength lanePosition minLineThickness
              minLineWidth).get ⟨k, hk⟩).scale.x = 3
          ∧ ((dashCommands roadCenter angle adjustedLength lanePosition minLineThickness
              minLineWidth).get ⟨k, hk⟩).localOffset.x
            = -adjustedLength / 2 + 10 * (k : ℝ) + 1.5)
    ∧ ((dashCommands roadCenter angle 103 lanePosition minLineThickness
          minLineWidth).map fun cmd => cmd.localOffset.x)
        = [-50, -40, -30, -20, -10, 0, 10, 20, 30, 40, 50] := by
  have h103 : ⌊(103 : ℝ) / (3 + 7)⌋ = 10 := by
    rw [Int.floor_eq_iff]
    constructor <;> norm_num
  refine ⟨⟨?_, ?_, ?_⟩, ?_⟩
  · simp only [dashCommands, List.length_map, List.length_range]
    norm_num
  · have : (0 : ℝ) ≤ adjustedLength / 10 := by positivity
    exact Int.toNat_of_nonneg (Int.floor_nonneg.mpr this)
  · intro k hk
    constructor
    · simp only [dashCommands, List.get_eq_getElem, List.getElem_map, List.getElem_range]
    · simp only [dashCommands, List.get_eq_getElem, List.getElem_map, List.getElem_range]
      ring_nf
  · simp [dashCommands, h103, List.range_succ]
    norm_num

/-- Witness for claim C3: the dash layout at adjusted length 103. -/
theorem C3_dash_layout_witness :
    ((dashCommands ⟨0, 0, 0⟩ 0 103 0 0 0).length = (⌊(103 : ℝ) / 10⌋).toNat + 1
      ∧ ((⌊(103 : ℝ) / 10⌋).toNat : ℤ) = ⌊(103 : ℝ) / 10⌋
      ∧ ∀ k, ∀ hk : k < (dashCommands ⟨0, 0, 0⟩ 0 103 0 0 0).length,
          ((dashCommands ⟨0, 0, 0⟩ 0 103 0 0 0).get ⟨k, hk⟩).scale.x = 3
          ∧ ((dashCommands ⟨0, 0, 0⟩ 0 103 0 0 0).get ⟨k, hk⟩).localOffset.x
            = -(103 : ℝ) / 2 + 10 * (k : ℝ) + 1.5)
    ∧ ((dashCommands ⟨0, 0, 0⟩ 0 103 0 0 0).map fun cmd => cmd.localOffset.x)
        = [-50, -40, -30, -20, -10, 0, 10, 20, 30, 40, 50] :=
  C3_dash_layout ⟨0, 0, 0⟩ 0 103 0 0 0 (by norm_num)

/-! ### Claim about the lane boundary layout -/

/-- Claim C5: the renderer lays out one boundary per index i in
1 .. laneCount - 1, so laneCount - 1 boundaries in total; every command
of boundary i sits at lateral offset -width / 2 + i * (width / laneCount);
the boundary is one solid full-length stroke exactly when the adjacent
lane types differ and a dash pattern otherwise; for lane types
[car, car, bike], boundary 1 is dashed and boundary 2 is solid. -/
theorem C5_lane_boundary_layout (roadCenter : Vector3)
    (angle adjustedLength roadWidth minLineThickness minLineWidth : ℝ)
    (lanes : List Lane) :
    (markingCommands roadCenter angle adjustedLength roadWidth
          (roadWidth / (lanes.length : ℝ)) minLineThickness minLineWidth lanes
          lanes.length
        = (List.range' 1 (lanes.length - 1)).flatMap
            (boundaryCommands roadCenter angle adjustedLength roadWidth
              (roadWidth / (lanes.length : ℝ)) minLineThickness minLineWidth lanes)
      ∧ (List.range' 1 (lanes.length - 1)).length = lanes.length - 1)
    ∧ (∀ i : ℕ, ∀ cmd ∈ boundaryCommands roadCenter angle adjustedLength roadWidth
          (roadWidth / (lanes.length : ℝ)) minLineThickness minLineWidth lanes i,
        cmd.localOffset.z = -roadWidth / 2 + (i : ℝ) * (roadWidth / (lanes.length : ℝ)))
    ∧ (∀ i : ℕ,
        (lanes.getD (i - 1) ⟨LaneType.car⟩).type ≠ (lanes.getD i ⟨LaneType.car⟩).type →
        boundaryCommands roadCenter angle adjustedLength roadWidth
            (roadWidth / (lanes.length : ℝ)) minLineThickness minLineWidth lanes i
          = [{ translation := roadCenter, rotationDeg := angle,
               localOffset := ⟨0, 0.05,
                 -roadWidth / 2 + (i : ℝ) * (roadWidth / (lanes.length : ℝ))⟩,
               scale := ⟨adjustedLength, max 0.2 minLineThickness,
                 max 0.2 minLineWidth⟩,
               color := ⟨1, 1, 1⟩ }])
    ∧ (∀ i : ℕ,
        (lanes.getD (i - 1) ⟨LaneType.car⟩).type = (lanes.getD i ⟨LaneType.car⟩).type →
        boundaryCommands roadCenter angle adjustedLength roadWidth
            (roadWidth / (lanes.length : ℝ)) minLineThickness minLineWidth lanes i
          = dashCommands roadCenter angle adjustedLength
              (-roadWidth / 2 + (i : ℝ) * (roadWidth / (lanes.length : ℝ)))
              minLineThickness minLineWidth)
    ∧ boundaryCommands roadCenter angle adjustedLength roadWidth
          (roadWidth / 3) minLineThickness minLineWidth
          [⟨LaneType.car⟩, ⟨LaneType.car⟩, ⟨LaneType.bike⟩] 1
        = dashCommands roadCenter angle adjustedLength
            (-roadWidth / 2 + (1 : ℝ) * (roadWidth / 3)) minLineThickness minLineWidth
    ∧ boundaryCommands roadCenter angle adjustedLength roadWidth
          (roadWidth / 3) minLineThickness minLineWidth
          [⟨LaneType.car⟩, ⟨LaneType.car⟩, ⟨LaneType.bike⟩] 2
        = [{ translation := roadCenter, rotationDeg := angle,
             localOffset := ⟨0, 0.05, -roadWidth / 2 + (2 : ℝ) * (roadWidth / 3)⟩,
             scale := ⟨adjustedLength, max 0.2 minLineThickness, max 0.2 minLineWidth⟩,
             color := ⟨1, 1, 1⟩ }] := by
  refine ⟨⟨rfl, by simp⟩, ?_, ?_, ?_, ?_, ?_⟩
  · intro i cmd hcmd
    simp only [boundaryCommands] at hcmd
    by_cases h : (lanes.getD (i - 1) ⟨LaneType.car⟩).type ≠ (lanes.getD i ⟨LaneType.car⟩).type
    · rw [if_pos h] at hcmd
      rw [List.mem_singleton] at hcmd
      rw [hcmd]
    · rw [if_neg h] at hcmd
      simp only [dashCommands, List.mem_map, List.mem_range] at hcmd
      obtain ⟨k, _, hcmd⟩ := hcmd
      rw [← hcmd]
  · intro i h
    simp only [boundaryCommands]
    rw [if_pos h]
  · intro i h
    simp only [boundaryCommands]
    rw [if_neg (not_ne_iff.mpr h)]
  · simp [boundaryCommands]
  · simp [boundaryCommands]

/-- Witness for claim C5 at a three-lane road of width 9. -/
theorem C5_lane_boundary_layout_witness :
    boundaryCommands ⟨0, 0, 0⟩ 0 103 9 (9 / 3) 0 0
          [⟨LaneType.car⟩, ⟨LaneType.car⟩, ⟨LaneType.bike⟩] 2
        = [{ translation := ⟨0, 0, 0⟩, rotationDeg := 0,
             localOffset := ⟨0, 0.05, -(9 : ℝ) / 2 + (2 : ℝ) * (9 / 3)⟩,
             scale := ⟨103, max 0.2 0, max 0.2 0⟩,
             color := ⟨1, 1, 1⟩ }] := by
  have h := C5_lane_boundary_layout ⟨0, 0, 0⟩ 0 103 9 0 0
    [⟨LaneType.car⟩, ⟨LaneType.car⟩, ⟨LaneType.bike⟩]
  exact h.2.2.2.2.2

/-! ### Claim about endpoint trimming -/

theorem Vector3.smul_zero (v : Vector3) : v * (0 : ℝ) = ⟨0, 0, 0⟩ := by
  simp [Vector3.smul_def]

/-- Claim C4: for a road with both junction references present, both
trimmed endpoints use only the start junction radius: the first emitted
command (the road body) is centered at the midpoint of
start + dir * startRadius and end - dir * startRadius, and replacing the
end junction radius by any value leaves the entire rendered output of the
road unchanged. -/
theorem C4_trim_uses_start_radius (oLeft oRight : ℝ) (road : RoadSegment)
    (sj ej : Junction) (r : ℝ) (hs : road.startJunction = some sj)
    (he : road.endJunction = some ej)
    (hnd : ¬ ((ej.position - (ej.position - sj.position).normalized * sj.radius)
        - (sj.position + (ej.position - sj.position).normalized * sj.radius)).length
        ≤ 0.001) :
    ((renderRoadSegment oLeft oRight road).head?.map fun cmd => cmd.translation)
        = some ⟨((sj.position + (ej.position - sj.position).normalized * sj.radius).x
              + (ej.position - (ej.position - sj.position).normalized * sj.radius).x) / 2,
            0.01,
            ((sj.position + (ej.position - sj.position).normalized * sj.radius).z
              + (ej.position - (ej.position - sj.position).normalized * sj.radius).z) / 2⟩
    ∧ renderRoadSegment oLeft oRight {road with endJunction := some {ej with radius := r}}
        = renderRoadSegment oLeft oRight road := by
  constructor
  · simp only [renderRoadSegment, hs, he, renderRoadSegmentAux]
    rw [if_neg hnd]
    rfl
  · simp only [renderRoadSegment, hs, he]
    rfl

/-- Witness for claim C4: a road from a junction at the origin with
radius 0 to a junction at (5, 0, 0); changing the end junction radius
from 1 to 7 leaves the rendered output unchanged. -/
theorem C4_trim_uses_start_radius_witness :
    ((renderRoadSegment 0 240
        ⟨some ⟨⟨0, 0, 0⟩, 0, none⟩, some ⟨⟨5, 0, 0⟩, 1, none⟩, ⟨0, 0, 4⟩,
          [⟨LaneType.car⟩], [], ⟨5, 0, 0⟩, fun _ _ => ⟨0, 0, 0⟩⟩).head?.map
        fun cmd => cmd.translation)
      = some ⟨((((⟨0, 0, 0⟩ : Vector3) + ((⟨5, 0, 0⟩ : Vector3) - ⟨0, 0, 0⟩).normalized * (0 : ℝ)).x
            + ((⟨5, 0, 0⟩ : Vector3) - ((⟨5, 0, 0⟩ : Vector3) - ⟨0, 0, 0⟩).normalized * (0 : ℝ)).x) / 2),
          0.01,
          ((((⟨0, 0, 0⟩ : Vector3) + ((⟨5, 0, 0⟩ : Vector3) - ⟨0, 0, 0⟩).normalized * (0 : ℝ)).z
            + ((⟨5, 0, 0⟩ : Vector3) - ((⟨5, 0, 0⟩ : Vector3) - ⟨0, 0, 0⟩).normalized * (0 : ℝ)).z) / 2)⟩
    ∧ renderRoadSegment 0 240
        ⟨some ⟨⟨0, 0, 0⟩, 0, none⟩, some ⟨⟨5, 0, 0⟩, 7, none⟩, ⟨0, 0, 4⟩,
          [⟨LaneType.car⟩], [], ⟨5, 0, 0⟩, fun _ _ => ⟨0, 0, 0⟩⟩
      = renderRoadSegment 0 240
        ⟨some ⟨⟨0, 0, 0⟩, 0, none⟩, some ⟨⟨5, 0, 0⟩, 1, none⟩, ⟨0, 0, 4⟩,
          [⟨LaneType.car⟩], [], ⟨5, 0, 0⟩, fun _ _ => ⟨0, 0, 0⟩⟩ :=
  C4_trim_uses_start_radius 0 240 _ ⟨⟨0, 0, 0⟩, 0, none⟩ ⟨⟨5, 0, 0⟩, 1, none⟩ 7 rfl rfl
    (by
      simp only [Vector3.smul_zero, Vector3.sub_zero_vec, Vector3.add_zero_vec,
        Vector3.length_mk]
      rw [show (5 : ℝ) ^ 2 + 0 ^ 2 + 0 ^ 2 = 5 ^ 2 by norm_num,
        Real.sqrt_sq (by norm_num : (0 : ℝ) ≤ 5)]
      norm_num)

/-! ### Claim about null vehicle entries -/

theorem vehicleCommands_eq (road : RoadSegment) :
    vehicleCommands road = (road.vehicles.filterMap id).map fun v => renderVehicle v road := by
  simp only [vehicleCommands]
  generalize road.vehicles = vs
  induction vs with
  | nil => rfl
  | cons hd tl ih =>
      cases hd <;> simp [List.flatMap_cons, List.filterMap_cons, ih]

/-- Claim C10: null entries of the vehicle list of a road are skipped
silently: removing a null entry does not change the vehicle commands nor
the full rendered output of the road, and the vehicle pass renders
exactly the non-null entries. -/
theorem C10_null_vehicles_skipped (oLeft oRight : ℝ) (road : RoadSegment)
    (pre suf : List (Option Vehicle)) :
    vehicleCommands {road with vehicles := pre ++ none :: suf}
        = vehicleCommands {road with vehicles := pre ++ suf}
    ∧ vehicleCommands {road with vehicles := pre ++ none :: suf}
        = ((pre ++ suf).filterMap id).map (fun v => renderVehicle v road)
    ∧ renderRoadSegment oLeft oRight {road with vehicles := pre ++ none :: suf}
        = renderRoadSegment oLeft oRight {road with vehicles := pre ++ suf} := by
  have hfm : (pre ++ none :: suf).filterMap (id : Option Vehicle → Option Vehicle)
      = (pre ++ suf).filterMap id := by
    simp
  refine ⟨?_, ?_, ?_⟩
  · simp only [vehicleCommands_eq]
    rw [hfm]
    rfl
  · simp only [vehicleCommands_eq]
    rw [hfm]
    rfl
  · cases hstart : road.startJunction with
    | none => simp [renderRoadSegment, hstart]
    | some sj =>
        cases hend : road.endJunction with
        | none => simp [renderRoadSegment, hstart, hend]
        | some ej =>
            simp only [renderRoadSegment, hstart, hend]
            simp only [renderRoadSegmentAux, RoadSegment.getLaneCount, vehicleCommands_eq]
            rw [hfm]
            rfl

end Morecpp
